import Mathlib

/-!
# Verification of the pokedex authentication/session layer

Shallow embedding of the repository's authentication subsystem:

* the JWT token codec (`jose` `SignJWT`/`jwtVerify` in the Next.js variant,
  `jsonwebtoken` `jwt.sign`/`jwt.verify` in the express backend; both use
  HS256 with the same claim set `{username}` and a 24h expiry, so one codec
  model covers both),
* the Next.js login route (`src/app/api/auth/login/route.ts`),
* the Next.js logout route (`src/app/api/auth/logout/route.ts`),
* the Next.js API-protection middleware (`middleware.ts`, `/api/pokemon` gate),
* the direct verifier (`src/lib/auth.ts`: `verifyAuth`,
  `verifyAuthFromRequest`, `requireApiAuth`),
* the express backend: `protect` middleware, `/api/login`, `/api/logout`,
  `/api/status` routes,
* the Next.js status proxy route (`src/app/api/auth/status/route.ts`).

HMAC-SHA256 is modelled as an injective function of the key and the signed
message: the structure `Hmac` records both, and equality of `Hmac` values is
equality of key and message.  This makes the standard collision-resistance
assumption on the real primitive literal in the model.

The base64url-encoded JSON claim payload is modelled as a list of symbols
(`List Nat`): the expiry timestamp followed by the code points of the
username.  The encoding is injective and executable, with an executable
partial inverse `decodeClaims`.
-/

/-- JWT claim set carried by the tokens this application issues:
`{username: ..., exp: ...}` (`iat` is not inspected anywhere and is
omitted).  `exp` is seconds since the epoch. -/
structure Claims where
  username : String
  exp : Nat
deriving DecidableEq, Repr

/-- The signed serialized claims: the expiry followed by the username's
character codes.  Models the base64url(JSON) payload of the compact JWT. -/
def encodeClaims (c : Claims) : List Nat :=
  c.exp :: c.username.data.map Char.toNat

/-- Executable partial inverse of `encodeClaims`: the JSON parse the
verifier performs on the payload. -/
def decodeClaims (p : List Nat) : Option Claims :=
  match p with
  | [] => none
  | e :: cs => some ⟨String.mk (cs.map Char.ofNat), e⟩

/-- HMAC-SHA256 output, modelled as the pair of key and message; the
collision-resistance of the primitive becomes injectivity of the
constructor. -/
structure Hmac where
  key : String
  message : List Nat
deriving DecidableEq, Repr

/-- `HMAC-SHA256(key, message)`. -/
def hmacSHA256 (key : String) (message : List Nat) : Hmac :=
  ⟨key, message⟩

/-- A compact JWT as transmitted in the `auth_token` cookie: the signed
payload together with its HS256 signature. -/
structure Token where
  payload : List Nat
  sig : Hmac
deriving DecidableEq, Repr

/-- Token issuance: `new SignJWT({username}).setProtectedHeader({alg:'HS256'})
.setExpirationTime('24h').sign(secret)` (jose), identically
`jwt.sign({username}, secret, {expiresIn: '24h'})` (jsonwebtoken).
`now` is the issuance time in seconds since the epoch; the expiry claim is
`now + 24*60*60`. -/
def signJWT (secret : String) (username : String) (now : Nat) : Token :=
  let payload := encodeClaims ⟨username, now + 24 * 60 * 60⟩
  ⟨payload, hmacSHA256 secret payload⟩

/-- Failure outcomes of JWT verification: bad signature (tampering or a
wrong secret), unparseable payload, or an expired `exp` claim. -/
inductive JwtError where
  | signatureInvalid
  | malformed
  | expired
deriving DecidableEq, Repr

/-- Token verification: `jwtVerify(token, secret)` (jose), identically
`jwt.verify(token, secret)` (jsonwebtoken).  The signature over the payload
is checked first; then the payload is parsed; then the `exp` claim is
compared against the current time (both libraries reject exactly when
`exp <= now`, with the default zero clock tolerance). -/
def jwtVerify (secret : String) (now : Nat) (t : Token) : Except JwtError Claims :=
  if t.sig ≠ hmacSHA256 secret t.payload then
    .error .signatureInvalid
  else
    match decodeClaims t.payload with
    | none => .error .malformed
    | some c => if c.exp ≤ now then .error .expired else .ok c

theorem decodeClaims_encodeClaims (c : Claims) :
    decodeClaims (encodeClaims c) = some c := by
  obtain ⟨u, e⟩ := c
  have h2 : String.mk u.data = u := by cases u; rfl
  simp [encodeClaims, decodeClaims, List.map_map, Function.comp_def,
    Char.ofNat_toNat, h2]

/-- Verifying a freshly issued token under the issuing secret, at any time
strictly before the expiry instant, yields the issued claims. -/
theorem jwtVerify_signJWT (secret username : String) (now t : Nat)
    (h : t < now + 24 * 60 * 60) :
    jwtVerify secret t (signJWT secret username now) =
      .ok ⟨username, now + 24 * 60 * 60⟩ := by
  unfold jwtVerify signJWT
  simp [decodeClaims_encodeClaims, Nat.not_le.mpr h]

/-- A signature computed over one payload never validates a different
payload: the verifier reports `signatureInvalid`. -/
theorem jwtVerify_tampered (secret : String) (now : Nat)
    (payload payload' : List Nat) (hne : payload' ≠ payload) :
    jwtVerify secret now ⟨payload', hmacSHA256 secret payload⟩ =
      .error .signatureInvalid := by
  unfold jwtVerify
  have : hmacSHA256 secret payload ≠ hmacSHA256 secret payload' := by
    intro h
    exact hne (congrArg Hmac.message h).symm
  simp [this]

/-- A token signed under a different secret is rejected with
`signatureInvalid`. -/
theorem jwtVerify_wrongSecret (secret secret' username : String) (now t : Nat)
    (hne : secret ≠ secret') :
    jwtVerify secret t (signJWT secret' username now) =
      .error .signatureInvalid := by
  unfold jwtVerify signJWT
  have : hmacSHA256 secret' (encodeClaims ⟨username, now + 24 * 60 * 60⟩) ≠
      hmacSHA256 secret (encodeClaims ⟨username, now + 24 * 60 * 60⟩) := by
    intro h
    exact hne ((congrArg Hmac.key h).symm)
  simp [this]

/-!
## HTTP-layer model

Requests carry an optional `auth_token` cookie value; responses carry an
HTTP status, a JSON body (only the shapes the auth endpoints produce), and
the list of `Set-Cookie` headers.
-/

/-- The value stored under the `auth_token` cookie name: a token, or the
empty string (which JavaScript's truthiness test treats like an absent
cookie). -/
inductive CookieValue where
  | tok (t : Token)
  | empty
deriving DecidableEq, Repr

/-- `request.cookies.get('auth_token')?.value` followed by the `!token`
truthiness test every handler performs: an absent cookie and an
empty-string value both count as "no token". -/
def getToken (cookie : Option CookieValue) : Option Token :=
  match cookie with
  | some (.tok t) => some t
  | _ => none

/-- `SameSite` cookie attribute values used by the handlers. -/
inductive SameSite where
  | strict
  | lax
deriving DecidableEq, Repr

/-- The cookie attributes the auth endpoints emit.  `maxAge` is the
wire-level `Max-Age` in seconds (express's `res.cookie` takes milliseconds
and divides by 1000 when serializing; the Next.js `cookies.set` takes
seconds directly). -/
structure CookieAttrs where
  httpOnly : Bool
  secure : Bool
  sameSite : SameSite
  maxAge : Nat
  path : String
deriving DecidableEq, Repr

/-- One `Set-Cookie` header. -/
structure SetCookie where
  name : String
  value : CookieValue
  attrs : CookieAttrs
deriving DecidableEq, Repr

/-- The JSON body shapes produced by the auth endpoints:
`{message: ...}`, `{error: ...}`, and the status endpoint's
`{success: ..., user?: {username: ...}}`. -/
inductive Body where
  | msg (s : String)
  | err (s : String)
  | statusBody (success : Bool) (user : Option String)
deriving DecidableEq, Repr

/-- An HTTP response: status code, JSON body, `Set-Cookie` headers. -/
structure Response where
  status : Nat
  body : Body
  setCookies : List SetCookie
deriving DecidableEq, Repr

/-- Deployment environment: the optional `JWT_SECRET` variable and whether
`NODE_ENV === 'production'`. -/
structure Env where
  jwtSecret : Option String
  production : Bool
deriving DecidableEq, Repr

/-- `process.env.JWT_SECRET || 'your-secret-key'` — the insecure fallback
the Next.js variants use when the environment variable is unset. -/
def envSecret (env : Env) : String :=
  env.jwtSecret.getD "your-secret-key"

deriving instance DecidableEq for Except

/-- `path.startsWith(prefix)`, computed on the underlying character
lists. -/
def pathStartsWith (path pre : String) : Bool :=
  pre.data.isPrefixOf path.data

/-- A submitted credential pair, the JSON body of a login request. -/
structure LoginRequest where
  username : String
  password : String
deriving DecidableEq, Repr

/-!
## Next.js login route — `src/app/api/auth/login/route.ts`
-/

/-- `POST /api/auth/login`: hardcoded `admin`/`admin` check; on success a
jose-signed token is set as the `auth_token` cookie with `httpOnly`,
`secure` in production, `sameSite` strict in production and lax otherwise,
`maxAge` 24h, `path` `/`; on failure `401 {error: 'Invalid credentials'}`
with no cookie. -/
def loginRoute (env : Env) (req : LoginRequest) (now : Nat) : Response :=
  if req.username = "admin" ∧ req.password = "admin" then
    let token := signJWT (envSecret env) "admin" now
    { status := 200
      body := .msg "Login successful"
      setCookies := [⟨"auth_token", .tok token,
        { httpOnly := true
          secure := env.production
          sameSite := if env.production then .strict else .lax
          maxAge := 24 * 60 * 60
          path := "/" }⟩] }
  else
    { status := 401, body := .err "Invalid credentials", setCookies := [] }

/-!
## Next.js logout route — `src/app/api/auth/logout/route.ts`

The handler reads nothing from the request (the `cookie` argument below
records that the inbound cookie state is ignored).
-/

/-- `POST /api/auth/logout`: always `200 {message: 'Logout successful'}`
and a clearing `Set-Cookie` (`auth_token=` with `Max-Age=0`). -/
def logoutRoute (env : Env) (cookie : Option CookieValue) : Response :=
  let _ := cookie
  { status := 200
    body := .msg "Logout successful"
    setCookies := [⟨"auth_token", .empty,
      { httpOnly := true
        secure := env.production
        sameSite := .strict
        maxAge := 0
        path := "/" }⟩] }

/-!
## Next.js API middleware — `middleware.ts` (`/api/pokemon` edge gate)
-/

/-- An API request as the middleware sees it: the path and the
`auth_token` cookie. -/
structure ApiRequest where
  path : String
  cookie : Option CookieValue
deriving DecidableEq, Repr

/-- Outcome of a gate: pass the request on (`NextResponse.next()`) or
short-circuit with a response. -/
inductive GateResult where
  | next
  | response (r : Response)
deriving DecidableEq, Repr

/-- Result of running the middleware, instrumented with whether
`jwt.verify` was invoked while handling the request. -/
structure GateRun where
  result : GateResult
  verifyCalled : Bool
deriving DecidableEq, Repr

/-- The Next.js middleware protecting `/api/pokemon` routes: no token →
`401 {error: 'Unauthorized: No token provided'}` without touching the
codec; present token → `jwt.verify`, passing on success and answering
`403 {error: 'Forbidden: Invalid or expired token'}` on any verification
error.  Non-matching paths pass through untouched. -/
def middleware (secret : String) (now : Nat) (req : ApiRequest) : GateRun :=
  if pathStartsWith req.path "/api/pokemon" then
    match getToken req.cookie with
    | none =>
      ⟨.response ⟨401, .err "Unauthorized: No token provided", []⟩, false⟩
    | some t =>
      match jwtVerify secret now t with
      | .ok _ => ⟨.next, true⟩
      | .error _ =>
        ⟨.response ⟨403, .err "Forbidden: Invalid or expired token", []⟩, true⟩
  else
    ⟨.next, false⟩

/-!
## Direct verifier — `src/lib/auth.ts`
-/

/-- The authenticated-user value `verifyAuth` returns. -/
structure AuthUser where
  username : String
deriving DecidableEq, Repr

/-- `verifyAuth()`: extract the `auth_token` cookie; absent → `null`;
otherwise `jwtVerify` under `JWT_SECRET || 'your-secret-key'`, mapping
success to `{username}` and every codec error to `null`. -/
def verifyAuth (env : Env) (now : Nat) (cookie : Option CookieValue) :
    Option AuthUser :=
  match getToken cookie with
  | none => none
  | some t =>
    match jwtVerify (envSecret env) now t with
    | .ok c => some ⟨c.username⟩
    | .error _ => none

/-- `verifyAuthFromRequest(request)`: same extraction and verification,
collapsed to a boolean. -/
def verifyAuthFromRequest (env : Env) (now : Nat)
    (cookie : Option CookieValue) : Bool :=
  match getToken cookie with
  | none => false
  | some t =>
    match jwtVerify (envSecret env) now t with
    | .ok _ => true
    | .error _ => false

/-- `requireApiAuth(request)`: `401 {error: 'Unauthorized: No valid token
provided'}` when `verifyAuthFromRequest` fails, `null` (continue) when it
succeeds. -/
def requireApiAuth (env : Env) (now : Nat) (cookie : Option CookieValue) :
    Option Response :=
  if verifyAuthFromRequest env now cookie then
    none
  else
    some ⟨401, .err "Unauthorized: No valid token provided", []⟩

/-!
## Express backend — `backend/middleware/auth.ts`, `backend/routes/auth.ts`,
`backend/routes/status.ts`

The express variants use `jsonwebtoken` with `process.env.JWT_SECRET!`
(no fallback); the secret is therefore a plain parameter here.
-/

/-- Outcome of the express `protect` middleware: halt with a response, or
call `next()` with `req.user` populated. -/
inductive ProtectResult where
  | halt (r : Response)
  | proceed (user : AuthUser)
deriving DecidableEq, Repr

/-- `protect(req, res, next)`: missing (or empty) `auth_token` cookie →
`401 {error: 'Unauthorized: No token provided'}` without calling
`jwt.verify`; otherwise `jwt.verify`, attaching `{username}` on success and
answering `403 {error: 'Forbidden: Invalid or expired token'}` on any
thrown verification error. -/
def protect (secret : String) (now : Nat) (cookie : Option CookieValue) :
    ProtectResult :=
  match getToken cookie with
  | none => .halt ⟨401, .err "Unauthorized: No token provided", []⟩
  | some t =>
    match jwtVerify secret now t with
    | .ok c => .proceed ⟨c.username⟩
    | .error _ => .halt ⟨403, .err "Forbidden: Invalid or expired token", []⟩

/-- `GET /api/status` (express): runs `protect`; when it proceeds, answers
`200 {success: true, user: req.user}`. -/
def statusRoute (secret : String) (now : Nat)
    (cookie : Option CookieValue) : Response :=
  match protect secret now cookie with
  | .halt r => r
  | .proceed u => ⟨200, .statusBody true (some u.username), []⟩

/-- `POST /api/login` (express): hardcoded `admin`/`admin`; success sets
the `auth_token` cookie via `res.cookie` with `httpOnly`, `secure` in
production, `sameSite: 'strict'` (unconditionally), `maxAge` 24h
(milliseconds in the call, seconds on the wire), default path `/`; failure
is `401 {error: 'Invalid credentials'}` with no cookie. -/
def expressLogin (secret : String) (production : Bool) (req : LoginRequest)
    (now : Nat) : Response :=
  if req.username = "admin" ∧ req.password = "admin" then
    { status := 200
      body := .msg "Login successful"
      setCookies := [⟨"auth_token", .tok (signJWT secret "admin" now),
        { httpOnly := true
          secure := production
          sameSite := .strict
          maxAge := 24 * 60 * 60 * 1000 / 1000
          path := "/" }⟩] }
  else
    { status := 401, body := .err "Invalid credentials", setCookies := [] }

/-- `POST /api/logout` (express): `res.clearCookie('auth_token', ...)` —
an immediately-expiring `Set-Cookie` (empty value, epoch `Expires`,
modelled as `Max-Age=0`) — then `200 {message: 'Logout successful'}`.
The inbound cookie state is ignored. -/
def expressLogout (production : Bool) (cookie : Option CookieValue) :
    Response :=
  let _ := cookie
  { status := 200
    body := .msg "Logout successful"
    setCookies := [⟨"auth_token", .empty,
      { httpOnly := true
        secure := production
        sameSite := .strict
        maxAge := 0
        path := "/" }⟩] }

/-!
## Next.js status proxy — `src/app/api/auth/status/route.ts`

Forwards the inbound `Cookie` header to the backend's `/api/status` and
relays the backend's status, body and every `Set-Cookie` header; a
transport failure becomes `500 {error: 'Internal server error'}`.
`backendResponse = none` models the unreachable-backend case.
-/

/-- `GET /api/auth/status` (proxy). -/
def statusProxy (backendResponse : Option Response) : Response :=
  match backendResponse with
  | none => ⟨500, .err "Internal server error", []⟩
  | some r => ⟨r.status, r.body, r.setCookies⟩

/-!
## Pipeline: edge middleware in front of an API handler

In the Next.js deployment the middleware of `middleware.ts` runs before
any `/api/pokemon` route handler; when it short-circuits, the handler
(and with it `requireApiAuth`) is never invoked.
-/

/-- Compose the edge middleware with the handler that would serve the
request: the middleware's response wins when it short-circuits. -/
def gatePipeline (secret : String) (now : Nat) (req : ApiRequest)
    (handler : Response) : Response :=
  match (middleware secret now req).result with
  | .response r => r
  | .next => handler

/-!
## Claim theorems
-/

/-- C1 — Round-trip: submitting the configured pair `admin`/`admin` to the
login route yields `200 {message: 'Login successful'}` with the
`auth_token` cookie set to a freshly signed token, and that token, handed
to the Direct Verifier (`verifyAuth`) under the same environment (hence
the same signing secret) at the same time, authenticates as
`{username: 'admin'}`. -/
theorem login_roundTrip (env : Env) (now : Nat) :
    loginRoute env ⟨"admin", "admin"⟩ now =
      ⟨200, .msg "Login successful",
        [⟨"auth_token", .tok (signJWT (envSecret env) "admin" now),
          ⟨true, env.production,
            if env.production then .strict else .lax, 24 * 60 * 60, "/"⟩⟩]⟩ ∧
    verifyAuth env now (some (.tok (signJWT (envSecret env) "admin" now))) =
      some ⟨"admin"⟩ := by
  constructor
  · unfold loginRoute
    simp
  · have h := jwtVerify_signJWT (envSecret env) "admin" now now
      (show now < now + 24 * 60 * 60 by omega)
    unfold verifyAuth
    simp [getToken, h]

/-- C2 — Tamper-evidence: take any issued token and mutate any single
symbol of its signed payload (position `i`, new value `b` different from
the original); verification at any time under the issuing secret reports
`signatureInvalid` — never `Authenticated`. -/
theorem token_tamperEvidence (secret username : String) (now now' i b : Nat)
    (hi : i < (signJWT secret username now).payload.length)
    (hb : b ≠ (signJWT secret username now).payload.get ⟨i, hi⟩) :
    jwtVerify secret now'
      ⟨(signJWT secret username now).payload.set i b,
        (signJWT secret username now).sig⟩ =
      .error .signatureInvalid := by
  have hne : (signJWT secret username now).payload.set i b ≠
      (signJWT secret username now).payload := by
    intro heq
    apply hb
    have h2 := congrArg (fun l : List Nat => l[i]?) heq
    simp only [List.getElem?_set_self hi, List.getElem?_eq_getElem hi] at h2
    rw [List.get_eq_getElem]
    exact Option.some.inj h2
  have hsig : (signJWT secret username now).sig =
      hmacSHA256 secret (signJWT secret username now).payload := rfl
  rw [hsig]
  exact jwtVerify_tampered secret now' _ _ hne

/-- C2 witness: the concrete token issued for `admin` at time 0, with the
payload symbol at position 0 overwritten by 0, is rejected at time 0. -/
theorem token_tamperEvidence_witness :
    jwtVerify "s" 0
      ⟨(signJWT "s" "admin" 0).payload.set 0 0, (signJWT "s" "admin" 0).sig⟩ =
      .error .signatureInvalid :=
  token_tamperEvidence "s" "admin" 0 0 0 0 (by decide) (by decide)

/-- C3 — Expiry boundary: a token issued at time `t` (expiry `t + 24h`)
fails with the expiry-classified outcome when verified at `t + 24h + 1s`,
and verifies to its issued claims at `t + 24h - 1s`, under the issuing
secret and untampered. -/
theorem token_expiryBoundary (secret username : String) (t : Nat) :
    jwtVerify secret (t + 24 * 60 * 60 + 1) (signJWT secret username t) =
      .error .expired ∧
    jwtVerify secret (t + 24 * 60 * 60 - 1) (signJWT secret username t) =
      .ok ⟨username, t + 24 * 60 * 60⟩ := by
  constructor
  · unfold jwtVerify signJWT
    simp [decodeClaims_encodeClaims]
  · exact jwtVerify_signJWT secret username t _ (by omega)

/-- C4 counterexample — the claim "the status endpoint always answers 200,
with `{success: false}` when unauthenticated" is false on the code: the
express status route runs behind `protect`, so a request with no
`auth_token` cookie is answered `401 {error: 'Unauthorized: No token
provided'}`, and the Next.js status proxy forwards that 401 unchanged. -/
theorem status_always200_counterexample :
    statusRoute "secret" 0 none =
      ⟨401, .err "Unauthorized: No token provided", []⟩ ∧
    statusProxy (some (statusRoute "secret" 0 none)) =
      ⟨401, .err "Unauthorized: No token provided", []⟩ ∧
    (statusRoute "secret" 0 none).status ≠ 200 := by
  decide

/-- C4 amended — the status endpoint answers `200 {success: true, user:
{username}}` only when the `auth_token` cookie verifies; a missing (or
empty) cookie yields `protect`'s `401 {error: 'Unauthorized: No token
provided'}` and a failing token its `403 {error: 'Forbidden: Invalid or
expired token'}`; the status proxy relays the backend's status, body and
`Set-Cookie` headers unchanged. -/
theorem status_endpoint_spec (secret : String) (now : Nat) :
    statusRoute secret now none =
      ⟨401, .err "Unauthorized: No token provided", []⟩ ∧
    statusRoute secret now (some .empty) =
      ⟨401, .err "Unauthorized: No token provided", []⟩ ∧
    (∀ t : Token, statusRoute secret now (some (.tok t)) =
      match jwtVerify secret now t with
      | .ok c => ⟨200, .statusBody true (some c.username), []⟩
      | .error _ => ⟨403, .err "Forbidden: Invalid or expired token", []⟩) ∧
    (∀ r : Response, statusProxy (some r) = ⟨r.status, r.body, r.setCookies⟩) := by
  refine ⟨rfl, rfl, fun t => ?_, fun r => rfl⟩
  unfold statusRoute protect
  rw [show getToken (some (.tok t)) = some t from rfl]
  cases h : jwtVerify secret now t <;> simp [h]

/-- C5 — a request against a protected `/api/pokemon` path with no
`auth_token` cookie is short-circuited by the edge middleware with exactly
`401 {error: 'Unauthorized: No token provided'}`, `jwt.verify` is never
invoked (`verifyCalled = false`), the protected handler never runs, and
the express `protect` middleware behaves identically for a cookieless
request. -/
theorem protectedApi_noCookie (secret : String) (now : Nat) (path : String)
    (hp : pathStartsWith path "/api/pokemon" = true) (handler : Response) :
    middleware secret now ⟨path, none⟩ =
      ⟨.response ⟨401, .err "Unauthorized: No token provided", []⟩, false⟩ ∧
    gatePipeline secret now ⟨path, none⟩ handler =
      ⟨401, .err "Unauthorized: No token provided", []⟩ ∧
    protect secret now none =
      .halt ⟨401, .err "Unauthorized: No token provided", []⟩ := by
  have hm : middleware secret now ⟨path, none⟩ =
      ⟨.response ⟨401, .err "Unauthorized: No token provided", []⟩, false⟩ := by
    unfold middleware
    rw [show (ApiRequest.mk path none).path = path from rfl, hp]
    rfl
  exact ⟨hm, by unfold gatePipeline; rw [hm], rfl⟩

/-- C5 witness: the concrete cookieless request to `/api/pokemon`. -/
theorem protectedApi_noCookie_witness :
    middleware "s" 0 ⟨"/api/pokemon", none⟩ =
      ⟨.response ⟨401, .err "Unauthorized: No token provided", []⟩, false⟩ ∧
    gatePipeline "s" 0 ⟨"/api/pokemon", none⟩ ⟨200, .msg "pokemon", []⟩ =
      ⟨401, .err "Unauthorized: No token provided", []⟩ ∧
    protect "s" 0 none =
      .halt ⟨401, .err "Unauthorized: No token provided", []⟩ :=
  protectedApi_noCookie "s" 0 "/api/pokemon" (by decide) ⟨200, .msg "pokemon", []⟩

/-- C6 — a request against a protected `/api/pokemon` path whose
`auth_token` cookie is present but fails verification (for any codec
error: wrong secret, malformed payload, or expiry) is answered
`403 {error: 'Forbidden: Invalid or expired token'}` and the protected
handler never runs; the express `protect` middleware answers the same
403. -/
theorem protectedApi_invalidToken (secret : String) (now : Nat)
    (path : String) (hp : pathStartsWith path "/api/pokemon" = true)
    (t : Token) (e : JwtError) (he : jwtVerify secret now t = .error e)
    (handler : Response) :
    middleware secret now ⟨path, some (.tok t)⟩ =
      ⟨.response ⟨403, .err "Forbidden: Invalid or expired token", []⟩, true⟩ ∧
    gatePipeline secret now ⟨path, some (.tok t)⟩ handler =
      ⟨403, .err "Forbidden: Invalid or expired token", []⟩ ∧
    protect secret now (some (.tok t)) =
      .halt ⟨403, .err "Forbidden: Invalid or expired token", []⟩ := by
  have hm : middleware secret now ⟨path, some (.tok t)⟩ =
      ⟨.response ⟨403, .err "Forbidden: Invalid or expired token", []⟩, true⟩ := by
    unfold middleware
    rw [show (ApiRequest.mk path (some (.tok t))).path = path from rfl, hp]
    rw [show getToken (ApiRequest.mk path (some (.tok t))).cookie = some t from rfl]
    simp [he]
  refine ⟨hm, by unfold gatePipeline; rw [hm], ?_⟩
  unfold protect
  rw [show getToken (some (.tok t)) = some t from rfl]
  simp [he]

/-- C6 witness: an expired token (issued at 0, presented at 100000 s)
against `/api/pokemon/1`. -/
theorem protectedApi_invalidToken_witness :
    middleware "s" 100000 ⟨"/api/pokemon/1", some (.tok (signJWT "s" "admin" 0))⟩ =
      ⟨.response ⟨403, .err "Forbidden: Invalid or expired token", []⟩, true⟩ ∧
    gatePipeline "s" 100000 ⟨"/api/pokemon/1", some (.tok (signJWT "s" "admin" 0))⟩
        ⟨200, .msg "pokemon", []⟩ =
      ⟨403, .err "Forbidden: Invalid or expired token", []⟩ ∧
    protect "s" 100000 (some (.tok (signJWT "s" "admin" 0))) =
      .halt ⟨403, .err "Forbidden: Invalid or expired token", []⟩ :=
  protectedApi_invalidToken "s" 100000 "/api/pokemon/1" (by decide)
    (signJWT "s" "admin" 0) .expired (by decide) ⟨200, .msg "pokemon", []⟩

/-- C7 — any submitted credential pair other than `admin`/`admin` is
rejected by both login endpoints with `401 {error: 'Invalid credentials'}`
and an empty `Set-Cookie` list. -/
theorem login_invalidCredentials (env : Env) (now : Nat) (u p : String)
    (h : ¬(u = "admin" ∧ p = "admin")) :
    loginRoute env ⟨u, p⟩ now = ⟨401, .err "Invalid credentials", []⟩ ∧
    (∀ (secret : String) (production : Bool),
      expressLogin secret production ⟨u, p⟩ now =
        ⟨401, .err "Invalid credentials", []⟩) := by
  constructor
  · unfold loginRoute
    simp [h]
  · intro secret production
    unfold expressLogin
    simp [h]

/-- C7 witness: the pair `admin`/`wrong`. -/
theorem login_invalidCredentials_witness :
    loginRoute ⟨some "s", false⟩ ⟨"admin", "wrong"⟩ 0 =
      ⟨401, .err "Invalid credentials", []⟩ ∧
    (∀ (secret : String) (production : Bool),
      expressLogin secret production ⟨"admin", "wrong"⟩ 0 =
        ⟨401, .err "Invalid credentials", []⟩) :=
  login_invalidCredentials ⟨some "s", false⟩ 0 "admin" "wrong" (by decide)

/-- C8 — both logout endpoints, whatever cookie (valid, invalid or none)
accompanies the request, answer `200 {message: 'Logout successful'}` with
a single `Set-Cookie` that clears `auth_token`: empty value and immediate
expiry (`Max-Age=0`; express's `clearCookie` emits the equivalent epoch
`Expires` directive). -/
theorem logout_clearsCookie (env : Env) (cookie : Option CookieValue) :
    logoutRoute env cookie =
      ⟨200, .msg "Logout successful",
        [⟨"auth_token", .empty, ⟨true, env.production, .strict, 0, "/"⟩⟩]⟩ ∧
    (∀ production : Bool, expressLogout production cookie =
      ⟨200, .msg "Logout successful",
        [⟨"auth_token", .empty, ⟨true, production, .strict, 0, "/"⟩⟩]⟩) :=
  ⟨rfl, fun _ => rfl⟩

/-- C9 counterexample — the claim "the issued cookie's `sameSite` is
strict in production and lax otherwise" fails on the express login route:
in a non-production environment it still sets `sameSite: 'strict'`. -/
theorem login_cookieAttrs_counterexample :
    (expressLogin "s" false ⟨"admin", "admin"⟩ 0).setCookies.map
        SetCookie.attrs =
      [⟨true, false, .strict, 24 * 60 * 60, "/"⟩] ∧
    SameSite.strict ≠ SameSite.lax := by
  decide

/-- C9 amended — on successful login the Next.js route's cookie carries
`httpOnly`, `secure` iff production, `sameSite` strict in production and
lax otherwise, `maxAge` 24h and path `/`; the express route's cookie is
identical except that `sameSite` is strict unconditionally. -/
theorem login_cookieAttrs (env : Env) (now : Nat) (secret : String)
    (production : Bool) :
    (loginRoute env ⟨"admin", "admin"⟩ now).setCookies.map SetCookie.attrs =
      [⟨true, env.production, if env.production then .strict else .lax,
        24 * 60 * 60, "/"⟩] ∧
    (expressLogin secret production ⟨"admin", "admin"⟩ now).setCookies.map
        SetCookie.attrs =
      [⟨true, production, .strict, 24 * 60 * 60, "/"⟩] := by
  constructor
  · unfold loginRoute
    simp
  · unfold expressLogin
    simp
